import Mathlib

/-!
Shallow embedding of the proxy-routing backend (src/backend/app):
  - app/core/security.py : JWT-based API-key issuance and verification
  - app/api/routes/proxy.py : region registry, health probing, status
    aggregation, endpoint selection, proxied fetch, API-key listing,
    and the API-token authorization gate.

Machine-level conventions: timestamps are integer seconds (Int),
elapsed durations are rationals (ℚ), Python dict payloads of the JWT
claims used by this code are a record with optional fields, and Python
exceptions are an explicit error type threaded through `Except`.
-/

namespace DataProxy

/-- Python exception values that can cross the functions modelled here.
`pyJWT*` constructors are the exceptions raised by the PyJWT library
(`import jwt`); `joseJWTError` is `jose.JWTError` from the python-jose
library (`from jose import JWTError`); `httpException code detail`
is FastAPI's `HTTPException(status_code=code, detail=detail)`.
PyJWT exception classes are not subclasses of `jose.JWTError`. -/
inductive PyExc where
  | pyJWTDecodeError
  | pyJWTExpiredSignature
  | pyJWTInvalidSignature
  | joseJWTError
  | httpException (code : Nat) (detail : String)
deriving DecidableEq, Repr

/-- The JWT claim set used by `generate_api_key` / `verify_api_key`:
a Python dict that may carry `user_id`, `iat` and `exp` entries.
An absent field models an absent dict key. -/
structure JWTClaims where
  user_id : Option String
  iat : Option Int
  exp : Option Int
deriving DecidableEq, Repr

/-- A token string as seen by `jwt.decode`: either a well-formed JWT,
which determines its claims, the key it was signed with and its
algorithm, or a malformed string that cannot be parsed as a JWT. -/
inductive TokenString where
  | signed (claims : JWTClaims) (key : String) (alg : String)
  | malformed (raw : String)
deriving DecidableEq, Repr

/-- `jwt.encode(claims, key, algorithm=alg)` from PyJWT: produces a
token signed with `key` under `alg`, embedding `claims`. -/
def jwtEncode (claims : JWTClaims) (key : String) (alg : String) : TokenString :=
  TokenString.signed claims key alg

/-- `jwt.decode(token, key, algorithms=algs)` from PyJWT at current time
`now`: fails with `DecodeError` on a malformed token, with
`InvalidSignatureError` on a key or algorithm mismatch, and with
`ExpiredSignatureError` when the embedded `exp` claim satisfies
`exp <= now` (PyJWT treats a token as expired once `exp <= now` with
zero leeway); otherwise returns the embedded claims. -/
def jwtDecode (token : TokenString) (key : String) (algs : List String)
    (now : Int) : Except PyExc JWTClaims :=
  match token with
  | TokenString.malformed _ => Except.error PyExc.pyJWTDecodeError
  | TokenString.signed claims k a =>
    if k = key ∧ a ∈ algs then
      match claims.exp with
      | some e =>
        if e ≤ now then Except.error PyExc.pyJWTExpiredSignature
        else Except.ok claims
      | none => Except.ok claims
    else Except.error PyExc.pyJWTInvalidSignature

/-- `ALGORITHM = "HS256"` from app/core/security.py. -/
def ALGORITHM : String := "HS256"

/-- Seconds in the 365 days that `generate_api_key` adds to `iat`
to form `exp` (`timedelta(days=365)`). -/
def YEAR_SECONDS : Int := 365 * 86400

/-- `generate_api_key(user_id)` from app/core/security.py: encodes
`{"user_id": user_id, "iat": now, "exp": now + 365 days}` with the
process-wide secret key under HS256. -/
def generate_api_key (user_id : String) (secret_key : String) (now : Int) :
    TokenString :=
  jwtEncode { user_id := some user_id, iat := some now,
              exp := some (now + YEAR_SECONDS) } secret_key ALGORITHM

/-- The `except JWTError` clause of `verify_api_key` catches exactly the
exceptions that are instances of `jose.JWTError`; PyJWT exceptions are
not among them. -/
def caughtByJoseJWTError : PyExc → Bool
  | PyExc.joseJWTError => true
  | _ => false

/-- `verify_api_key(api_key)` from app/core/security.py at current time
`now`: runs `jwt.decode(api_key, SECRET_KEY, algorithms=[ALGORITHM])`
inside `try`, returning the payload on success; the `except JWTError`
handler returns `None` (modelled as `Except.ok none`), but it only
catches `jose.JWTError`, so any other exception raised by `jwt.decode`
propagates to the caller (modelled as `Except.error`). -/
def verify_api_key (api_key : TokenString) (secret_key : String) (now : Int) :
    Except PyExc (Option JWTClaims) :=
  match jwtDecode api_key secret_key [ALGORITHM] now with
  | Except.ok payload => Except.ok (some payload)
  | Except.error e =>
    if caughtByJoseJWTError e then Except.ok none else Except.error e

/-- The user record fields read by the authorization gate
(`app.models.User` as consumed by proxy.py). -/
structure User where
  id : String
  is_active : Bool
  has_subscription : Bool
deriving DecidableEq, Repr

/-- Modelled from the spec: `users.read_user_by_id` lives outside the
given sources; per §4.6 step 3 the gate looks the User up by `user_id`
via the external user-management collaborator, which yields the user
when it exists and nothing otherwise. -/
def UserLookup : Type := String → Option User

/-- `verify_api_token(session, x_api_key)` from proxy.py: the
authorization-gate dependency. `x_api_key = none` models an absent
`x-api-key` header (the parameter defaults to `None`); `if not
x_api_key` is also true for an empty header string. A dict `token_data`
fails `if not token_data or "user_id" not in token_data` exactly when it
has no `user_id` entry (an empty dict has none). Exceptions raised by
`verify_api_key` are not handled here and propagate. -/
def verify_api_token (lookup : UserLookup) (secret_key : String) (now : Int)
    (x_api_key : Option TokenString) : Except PyExc User :=
  match x_api_key with
  | none => Except.error (PyExc.httpException 401 "API key required")
  | some tok =>
    if tok = TokenString.malformed "" then
      Except.error (PyExc.httpException 401 "API key required")
    else
      match verify_api_key tok secret_key now with
      | Except.error e => Except.error e
      | Except.ok none =>
        Except.error (PyExc.httpException 401 "Invalid API key")
      | Except.ok (some token_data) =>
        match token_data.user_id with
        | none => Except.error (PyExc.httpException 401 "Invalid API key")
        | some uid =>
          match lookup uid with
          | none =>
            Except.error (PyExc.httpException 401 "Invalid or inactive user")
          | some user =>
            if !user.is_active then
              Except.error (PyExc.httpException 401 "Invalid or inactive user")
            else if !user.has_subscription then
              Except.error (PyExc.httpException 403 "Active subscription required")
            else Except.ok user

/-- `REGION_ENDPOINTS` from proxy.py: the static region → endpoint
registry, loaded once at process start and never mutated. -/
def REGION_ENDPOINTS : List (String × List String) :=
  [("northamerica-northeast",
      ["https://northamerica-northeast1-proxy2-455013.cloudfunctions.net/main",
       "https://northamerica-northeast2-proxy2-455013.cloudfunctions.net/main"]),
   ("southamerica",
      ["https://southamerica-west1-proxy1-454912.cloudfunctions.net/main",
       "https://southamerica-east1-proxy3-455013.cloudfunctions.net/main",
       "https://southamerica-west1-proxy3-455013.cloudfunctions.net/main"]),
   ("us-central",
      ["https://us-central1-proxy1-454912.cloudfunctions.net/main",
       "https://us-central1-proxy2-455013.cloudfunctions.net/main",
       "https://us-south1-proxy3-455013.cloudfunctions.net/main"]),
   ("us-east",
      ["https://us-east1-proxy1-454912.cloudfunctions.net/main",
       "https://us-east4-proxy1-454912.cloudfunctions.net/main",
       "https://us-east5-proxy2-455013.cloudfunctions.net/main"]),
   ("asia",
      ["https://asia-east1-proxy6-455014.cloudfunctions.net/main",
       "https://asia-northeast2-proxy6-455014.cloudfunctions.net/main"]),
   ("us-west",
      ["https://us-west1-proxy1-454912.cloudfunctions.net/main",
       "https://us-west3-proxy1-454912.cloudfunctions.net/main",
       "https://us-west4-proxy1-454912.cloudfunctions.net/main",
       "https://us-west2-proxy2-455013.cloudfunctions.net/main"]),
   ("europe",
      ["https://europe-north1-proxy4-455014.cloudfunctions.net/main",
       "https://europe-southwest1-proxy4-455014.cloudfunctions.net/main",
       "https://europe-west1-proxy4-455014.cloudfunctions.net/main",
       "https://europe-west4-proxy4-455014.cloudfunctions.net/main",
       "https://europe-west6-proxy4-455014.cloudfunctions.net/main",
       "https://europe-west8-proxy4-455014.cloudfunctions.net/main",
       "https://europe-west12-proxy5-455014.cloudfunctions.net/main",
       "https://europe-west2-proxy5-455014.cloudfunctions.net/main",
       "https://europe-west3-proxy5-455014.cloudfunctions.net/main",
       "https://europe-west6-proxy5-455014.cloudfunctions.net/main",
       "https://europe-west9-proxy5-455014.cloudfunctions.net/main",
       "https://europe-west10-proxy6-455014.cloudfunctions.net/main"]),
   ("middle-east",
      ["https://me-central1-proxy6-455014.cloudfunctions.net/main"]),
   ("australia",
      ["https://australia-southeast1-proxy3-455013.cloudfunctions.net/main",
       "https://australia-southeast2-proxy3-455013.cloudfunctions.net/main"])]

/-- The endpoint list the registry assigns to the region `asia`. -/
def asiaEndpoints : List String :=
  ["https://asia-east1-proxy6-455014.cloudfunctions.net/main",
   "https://asia-northeast2-proxy6-455014.cloudfunctions.net/main"]

/-- `region in REGION_ENDPOINTS` / `REGION_ENDPOINTS[region]`: dict
lookup on the registry. -/
def lookupRegion : List (String × List String) → String → Option (List String)
  | [], _ => none
  | (k, v) :: rest, r => if r = k then some v else lookupRegion rest r

/-- The outcome of the single HTTP call a health probe makes to
`{endpoint}/health`: either a response arrived, carrying its status
code and the elapsed wall-clock time, or the call raised (timeout,
connection refusal, malformed response, ...), with the elapsed time at
the point of failure. This is the whole space of network outcomes. -/
inductive ProbeOutcome where
  | response (status : Nat) (elapsed : ℚ)
  | netError (elapsed : ℚ)
deriving DecidableEq, Repr

/-- The elapsed wall-clock time `time.time() - start_time` at the point
the probe concluded. -/
def ProbeOutcome.elapsed : ProbeOutcome → ℚ
  | ProbeOutcome.response _ t => t
  | ProbeOutcome.netError t => t

/-- httpx `response.raise_for_status()` raises unless the status code is
a 2xx success. -/
def isSuccessStatus (status : Nat) : Bool :=
  200 ≤ status && status < 300

/-- The dict returned by `check_proxy_health` (no `endpoint` key is
included in it). -/
structure HealthCheckResult where
  region : String
  is_healthy : Bool
  response_time : ℚ
  last_checked : Int
deriving DecidableEq, Repr

/-- `check_proxy_health(endpoint, region)` from proxy.py, as a function
of the network outcome of its single `GET {endpoint}/health` call and
the timestamp `checked_at` (`datetime.utcnow()`). The `try` body marks
the probe healthy when the response passes `raise_for_status`; the
`except Exception` handler catches every failure (timeout, connection
error, non-2xx status, anything raised) and returns an unhealthy
verdict. Both arms record the elapsed time, so the function is total
over all network outcomes and never raises. -/
def check_proxy_health (region : String) (outcome : ProbeOutcome)
    (checked_at : Int) : HealthCheckResult :=
  match outcome with
  | ProbeOutcome.response status t =>
    if isSuccessStatus status then
      { region := region, is_healthy := true, response_time := t,
        last_checked := checked_at }
    else
      { region := region, is_healthy := false, response_time := t,
        last_checked := checked_at }
  | ProbeOutcome.netError t =>
    { region := region, is_healthy := false, response_time := t,
      last_checked := checked_at }

/-- `ProxyStatus` response model from proxy.py. -/
structure ProxyStatus where
  region : String
  is_healthy : Bool
  avg_response_time : ℚ
  healthy_endpoints : Nat
  total_endpoints : Nat
  last_checked : Int
deriving DecidableEq, Repr

/-- `ProxyStatusResponse` response model from proxy.py. -/
structure ProxyStatusResponse where
  statuses : List ProxyStatus
deriving DecidableEq, Repr

/-- A network environment: the probe outcome each endpoint would
produce at this instant. `asyncio.gather` runs one probe per endpoint
and yields their results in endpoint order. -/
def NetEnv : Type := String → ProbeOutcome

/-- The probe results for a region's endpoint list, in endpoint order:
`results = await asyncio.gather(*[check_proxy_health(e, region) ...])`. -/
def probeResults (region : String) (endpoints : List String) (env : NetEnv)
    (now : Int) : List HealthCheckResult :=
  endpoints.map (fun e => check_proxy_health region (env e) now)

/-- `GET /status` handler `get_proxy_status(region, ...)` from proxy.py,
after the authorization gate: 400 on an unknown region; otherwise
probes every endpoint of the region, counts healthy verdicts, averages
the response times, and wraps a single `ProxyStatus` in the response. -/
def get_proxy_status (region : String) (env : NetEnv) (now : Int) :
    Except PyExc ProxyStatusResponse :=
  match lookupRegion REGION_ENDPOINTS region with
  | none => Except.error (PyExc.httpException 400 "Invalid region")
  | some endpoints =>
    let results := probeResults region endpoints env now
    let healthy_count := (results.filter (fun r => r.is_healthy)).length
    let total_count := endpoints.length
    let avg_response_time : ℚ :=
      if total_count > 0 then
        (results.map (fun r => r.response_time)).sum / (total_count : ℚ)
      else 0
    let status : ProxyStatus :=
      { region := region,
        is_healthy := healthy_count > 0,
        avg_response_time := avg_response_time,
        healthy_endpoints := healthy_count,
        total_endpoints := total_count,
        last_checked := ((results.head?).map
          (fun r => r.last_checked)).getD now }
    Except.ok { statuses := [status] }

/-- `ProxyResponse` response model from proxy.py: the upstream result
fields plus `region_used` (changed from `endpoint_used`; no endpoint
field exists). -/
structure ProxyResponse where
  result : String
  public_ip : String
  device_id : String
  region_used : String
deriving DecidableEq, Repr

/-- The three fields `proxy_fetch` reads out of the upstream JSON body. -/
structure FetchData where
  result : String
  public_ip : String
  device_id : String
deriving DecidableEq, Repr

/-- The outcome of the single `POST {selected_endpoint}/fetch` call:
either a 2xx response with a parseable body carrying the three expected
fields, or any failure (timeout, non-success status, malformed or
incomplete body) which the `except` clause converts to a 500. -/
inductive ForwardOutcome where
  | ok (data : FetchData)
  | fail
deriving DecidableEq, Repr

/-- How `proxy_fetch` builds its successful response: from the upstream
body fields and the requested region only; the selected endpoint is not
an input. -/
def mkProxyResponse (data : FetchData) (region : String) : ProxyResponse :=
  { result := data.result, public_ip := data.public_ip,
    device_id := data.device_id, region_used := region }

/-- `healthy_endpoints = [endpoints[i] for i, result in
enumerate(results) if result["is_healthy"]]` from `proxy_fetch`. -/
def healthySubset (region : String) (endpoints : List String) (env : NetEnv)
    (now : Int) : List String :=
  endpoints.filter (fun e => (check_proxy_health region (env e) now).is_healthy)

/-- What a run of the `POST /fetch` handler produced: the HTTP-level
result, and the endpoint the forward call was issued to, if any call
was made at all. -/
structure FetchTrace where
  response : Except PyExc ProxyResponse
  forwarded : Option String
deriving Repr

/-- `POST /fetch` handler `proxy_fetch(...)` from proxy.py, after the
authorization gate: 400 on an unknown region; probes all of the
region's endpoints; keeps the healthy ones; 503 with no forward call if
none are healthy; otherwise forwards the client URL to
`random.choice(healthy_endpoints)` — the random draw is modelled by the
index `pick`, reduced modulo the number of healthy endpoints — and maps
the upstream outcome into a `ProxyResponse` or a 500. -/
def proxy_fetch (region : String) (env : NetEnv) (now : Int) (pick : Nat)
    (forward : String → ForwardOutcome) : FetchTrace :=
  match lookupRegion REGION_ENDPOINTS region with
  | none =>
    { response := Except.error (PyExc.httpException 400 "Invalid region"),
      forwarded := none }
  | some endpoints =>
    let healthy := healthySubset region endpoints env now
    match healthy with
    | [] =>
      { response := Except.error
          (PyExc.httpException 503 "No healthy proxy endpoints available"),
        forwarded := none }
    | h :: t =>
      let sel := (h :: t).getD (pick % (h :: t).length) h
      match forward sel with
      | ForwardOutcome.ok data =>
        { response := Except.ok (mkProxyResponse data region),
          forwarded := some sel }
      | ForwardOutcome.fail =>
        { response := Except.error
            (PyExc.httpException 500 "Proxy request failed"),
          forwarded := some sel }

/-- A Python `datetime` down to whole seconds (the fields
`isoformat()` renders for the values this code stores). -/
structure PyDatetime where
  year : Nat
  month : Nat
  day : Nat
  hour : Nat
  minute : Nat
  second : Nat
deriving DecidableEq, Repr

/-- Zero-pad a number to two digits, as `datetime.isoformat` does for
month, day, hour, minute and second. -/
def pad2 (n : Nat) : String :=
  if n < 10 then "0" ++ toString n else toString n

/-- Zero-pad a number to four digits, as `datetime.isoformat` does for
the year. -/
def pad4 (n : Nat) : String :=
  if n < 10 then "000" ++ toString n
  else if n < 100 then "00" ++ toString n
  else if n < 1000 then "0" ++ toString n
  else toString n

/-- `datetime.isoformat()` for a whole-second datetime:
`YYYY-MM-DDTHH:MM:SS`. -/
def isoformat (d : PyDatetime) : String :=
  pad4 d.year ++ "-" ++ pad2 d.month ++ "-" ++ pad2 d.day ++ "T" ++
    pad2 d.hour ++ ":" ++ pad2 d.minute ++ ":" ++ pad2 d.second

/-- The persisted `APIToken` row as read by `list_user_api_keys`. -/
structure APIToken where
  user_id : String
  token : String
  created_at : PyDatetime
  expires_at : PyDatetime
  is_active : Bool
deriving DecidableEq, Repr

/-- `FRONT_PREVIEW_LENGTH` from proxy.py. -/
def FRONT_PREVIEW_LENGTH : Nat := 8

/-- `END_PREVIEW_LENGTH` from proxy.py. -/
def END_PREVIEW_LENGTH : Nat := 8

/-- Python slice `s[:n]`: the first `min n (len s)` characters. -/
def pySliceFront (s : String) (n : Nat) : List Char :=
  s.data.take n

/-- Python slice `s[-n:]` for `n > 0`: the characters from position
`max (len s - n) 0` on, i.e. the last `min n (len s)` characters. -/
def pySliceBack (s : String) (n : Nat) : List Char :=
  s.data.drop (s.data.length - n)

/-- The f-string
`f"{token.token[:FRONT_PREVIEW_LENGTH]}...{token.token[-END_PREVIEW_LENGTH:]}"`
from `list_user_api_keys`: first 8 characters, three dots, last 8
characters, with Python's clamping slice semantics. -/
def key_preview (token : String) : String :=
  String.mk (pySliceFront token FRONT_PREVIEW_LENGTH ++
    (String.mk [Char.ofNat 46, Char.ofNat 46, Char.ofNat 46]).data ++
    pySliceBack token END_PREVIEW_LENGTH)

/-- Modelled from the spec, for comparison with `key_preview`:
"`preview(token) -> string`: returns a masked representation showing
the first 8 and last 8 characters ... Fails if the token string is
shorter than 16 characters (must not underflow)." The failure case is
the spec's words; the code's `key_preview` has no failure case. -/
def spec_preview (token : String) : Option String :=
  if token.length < 16 then none
  else some (String.mk (token.data.take 8 ++
    (String.mk [Char.ofNat 46, Char.ofNat 46, Char.ofNat 46]).data ++
    token.data.drop (token.data.length - 8)))

/-- `APIKeyResponse` response model from proxy.py. -/
structure APIKeyResponse where
  key_preview : String
  created_at : String
  expires_at : String
  is_active : Bool
deriving DecidableEq, Repr

/-- The dict built for one token row in `list_user_api_keys`. -/
def apiKeyEntry (t : APIToken) : APIKeyResponse :=
  { key_preview := key_preview t.token,
    created_at := isoformat t.created_at,
    expires_at := isoformat t.expires_at,
    is_active := t.is_active }

/-- `GET /api-keys` handler `list_user_api_keys(session, current_user)`
from proxy.py: 403 without a subscription; otherwise the session query
filters the persisted rows to `user_id == current_user.id` and
`is_active == True`, and each row is rendered to an `APIKeyResponse`. -/
def list_user_api_keys (tokens : List APIToken) (current_user : User) :
    Except PyExc (List APIKeyResponse) :=
  if !current_user.has_subscription then
    Except.error (PyExc.httpException 403 "Active subscription required")
  else
    Except.ok ((tokens.filter (fun t =>
      t.user_id == current_user.id && t.is_active)).map apiKeyEntry)

/-- In the source, `verify_api_key` receives only the token string (the
secret key and algorithm are process-wide constants, the current time
is ambient); no database session or `APIToken` row is a parameter.
This wrapper makes the persisted token store explicit in order to state
that the verification outcome does not depend on it. -/
def verify_api_key_in_state (_store : List APIToken) (api_key : TokenString)
    (secret_key : String) (now : Int) : Except PyExc (Option JWTClaims) :=
  verify_api_key api_key secret_key now

/-- A user lookup over an empty user table. -/
def emptyUserLookup : UserLookup := fun _ => none

/-- A sample creation timestamp for concrete runs. -/
def sampleDate1 : PyDatetime :=
  { year := 2025, month := 3, day := 19, hour := 16, minute := 11,
    second := 30 }

/-- A sample expiry timestamp for concrete runs. -/
def sampleDate2 : PyDatetime :=
  { year := 2026, month := 3, day := 19, hour := 16, minute := 11,
    second := 30 }

/-- A sample active, subscribed user for concrete runs. -/
def sampleUser : User :=
  { id := "u1", is_active := true, has_subscription := true }

/-- A persisted token row of `sampleUser` whose `is_active` flag has
been cleared (a revoked token). -/
def sampleInactiveToken : APIToken :=
  { user_id := "u1", token := "0123456789abcdefXYZ",
    created_at := sampleDate1, expires_at := sampleDate2,
    is_active := false }

/-- A persisted active token row of `sampleUser`. -/
def sampleActiveToken : APIToken :=
  { user_id := "u1", token := "0123456789abcdefXYZ",
    created_at := sampleDate1, expires_at := sampleDate2,
    is_active := true }

/-- The probe verdict always records exactly the elapsed time of the
network outcome as `response_time`. -/
theorem check_proxy_health_response_time (region : String)
    (o : ProbeOutcome) (now : Int) :
    (check_proxy_health region o now).response_time = o.elapsed := by
  cases o with
  | response status t =>
    by_cases hs : isSuccessStatus status <;>
      simp [check_proxy_health, ProbeOutcome.elapsed, hs]
  | netError t => simp [check_proxy_health, ProbeOutcome.elapsed]

/-! ## Claims about the Access Token Service (security.py) -/

/-- C2. The claim says `verify` never raises to its caller and returns
the failure value on signature mismatch, malformed envelope, or expiry.
The code evaluated at a malformed token: `jwt.decode` (PyJWT) raises
`DecodeError`, which is not an instance of the `jose.JWTError` that the
`except` clause catches, so `verify_api_key` propagates the exception
instead of returning `None`. The same happens for a bad signature and
for an expired token. -/
theorem verify_api_key_raises_instead_of_returning_none :
    verify_api_key (TokenString.malformed "garbage") "secret" 0
        = Except.error PyExc.pyJWTDecodeError ∧
    verify_api_key
        (jwtEncode { user_id := some "u1", iat := some 0, exp := some 100 }
          "other-key" ALGORITHM) "secret" 0
        = Except.error PyExc.pyJWTInvalidSignature ∧
    verify_api_key
        (jwtEncode { user_id := some "u1", iat := some 0, exp := some 100 }
          "secret" ALGORITHM) "secret" 100
        = Except.error PyExc.pyJWTExpiredSignature := by
  exact ⟨rfl, rfl, rfl⟩

/-- C1. The claim says a token that fails verification fails with 401
(InvalidTokenError). The gate evaluated at a malformed token header:
the PyJWT exception raised inside `verify_api_key` escapes
`verify_api_token` unhandled — the failure is not an
`HTTPException 401`. -/
theorem verify_api_token_raises_on_invalid_token :
    verify_api_token emptyUserLookup "secret" 0
        (some (TokenString.malformed "garbage"))
        = Except.error PyExc.pyJWTDecodeError ∧
    ∀ code detail, PyExc.pyJWTDecodeError ≠ PyExc.httpException code detail := by
  refine ⟨rfl, ?_⟩
  intro code detail h
  exact PyExc.noConfusion h

/-- C3. Round-trip: verifying a token immediately after issuing it for
`uid` succeeds and yields `user_id = uid`; once the current time is at
or past the token's `expires_at` (issuance time + 365 days), verify no
longer returns a payload. -/
theorem issue_verify_roundtrip (uid secret : String) (issued later : Int)
    (hlater : issued + YEAR_SECONDS ≤ later) :
    (∃ p, verify_api_key (generate_api_key uid secret issued) secret issued
        = Except.ok (some p) ∧ p.user_id = some uid) ∧
    ∀ p, verify_api_key (generate_api_key uid secret issued) secret later
        ≠ Except.ok (some p) := by
  have hfresh : ¬ (issued + YEAR_SECONDS ≤ issued) := by
    unfold YEAR_SECONDS; omega
  constructor
  · refine ⟨{ user_id := some uid, iat := some issued,
              exp := some (issued + YEAR_SECONDS) }, ?_, rfl⟩
    simp [verify_api_key, generate_api_key, jwtEncode, jwtDecode, ALGORITHM,
      hfresh]
  · intro p hcontra
    simp [verify_api_key, generate_api_key, jwtEncode, jwtDecode, ALGORITHM,
      hlater, caughtByJoseJWTError] at hcontra

/-- Witness for C3 at `uid = "u1"`, `secret = "k"`, issuance time 0,
verification re-run exactly at the expiry instant `365 * 86400`. -/
theorem issue_verify_roundtrip_witness :
    (∃ p, verify_api_key (generate_api_key "u1" "k" 0) "k" 0
        = Except.ok (some p) ∧ p.user_id = some "u1") ∧
    ∀ p, verify_api_key (generate_api_key "u1" "k" 0) "k" 31536000
        ≠ Except.ok (some p) :=
  issue_verify_roundtrip "u1" "k" 0 31536000 (by norm_num [YEAR_SECONDS])

/-- C9. The verification outcome is a function of the token string, the
secret key (with its fixed algorithm) and the current time only: it is
identical under any two persisted token stores, in particular stores
that differ in the `is_active` flag of the corresponding `AccessToken`
row. -/
theorem verify_independent_of_store (s1 s2 : List APIToken)
    (t : TokenString) (secret : String) (now : Int) :
    verify_api_key_in_state s1 t secret now
      = verify_api_key_in_state s2 t secret now := rfl

/-! ## Claims about the Health Prober and Status Aggregator (proxy.py) -/

/-- C5. The health probe is total over all network outcomes (its return
type carries no error: every outcome, response or raised exception,
yields a verdict). The recorded `response_time` is the elapsed time of
the outcome and is non-negative whenever the wall clock did not run
backwards during the probe; a response with a non-success status and
every raised network error (timeout, connection refusal, malformed
response) yield `is_healthy = false`. -/
theorem check_proxy_health_total (region : String) (o : ProbeOutcome)
    (now : Int) (helapsed : 0 ≤ o.elapsed) :
    (check_proxy_health region o now).response_time = o.elapsed ∧
    0 ≤ (check_proxy_health region o now).response_time ∧
    (∀ status t, o = ProbeOutcome.response status t →
      isSuccessStatus status = false →
      (check_proxy_health region o now).is_healthy = false) ∧
    (∀ t, o = ProbeOutcome.netError t →
      (check_proxy_health region o now).is_healthy = false) := by
  refine ⟨check_proxy_health_response_time region o now, ?_, ?_, ?_⟩
  · rw [check_proxy_health_response_time]
    exact helapsed
  · intro status t ho hs
    subst ho
    simp [check_proxy_health, hs]
  · intro t ho
    subst ho
    simp [check_proxy_health]

/-- Witness for C5: a timed-out probe against an `asia` endpoint that
took 5 time units. -/
theorem check_proxy_health_total_witness :
    (check_proxy_health "asia" (ProbeOutcome.netError 5) 0).response_time
        = (ProbeOutcome.netError 5).elapsed ∧
    0 ≤ (check_proxy_health "asia" (ProbeOutcome.netError 5) 0).response_time ∧
    (∀ status t,
      ProbeOutcome.netError 5 = ProbeOutcome.response status t →
      isSuccessStatus status = false →
      (check_proxy_health "asia" (ProbeOutcome.netError 5) 0).is_healthy
          = false) ∧
    (∀ t, ProbeOutcome.netError 5 = ProbeOutcome.netError t →
      (check_proxy_health "asia" (ProbeOutcome.netError 5) 0).is_healthy
          = false) :=
  check_proxy_health_total "asia" (ProbeOutcome.netError 5) 0
    (by simp [ProbeOutcome.elapsed])

/-- Splitting a list by a Boolean predicate preserves its length. -/
theorem length_filter_add_length_filter_not {α : Type} (l : List α)
    (p : α → Bool) :
    (l.filter p).length + (l.filter (fun a => !p a)).length = l.length := by
  induction l with
  | nil => rfl
  | cons a t ih =>
    by_cases h : p a <;> simp [List.filter_cons, h] <;> omega

/-- Every region in the registry owns at least one endpoint. -/
theorem registry_values_nonempty : ∀ p ∈ REGION_ENDPOINTS, p.2 ≠ [] := by
  decide

/-- A successful registry lookup returns one of the registry's endpoint
lists. -/
theorem lookupRegion_mem : ∀ (l : List (String × List String)) (r : String)
    (eps : List String), lookupRegion l r = some eps → eps ∈ l.map Prod.snd
  | [], _, _, h => by simp [lookupRegion] at h
  | (k, v) :: tl, r, eps, h => by
    by_cases hr : r = k
    · simp only [lookupRegion, if_pos hr, Option.some.injEq] at h
      simp [h]
    · simp only [lookupRegion, if_neg hr] at h
      exact List.mem_cons_of_mem _ (lookupRegion_mem tl r eps h)

/-- The endpoint list of any region found in the registry is
non-empty. -/
theorem lookup_registry_nonempty (region : String) (eps : List String)
    (hreg : lookupRegion REGION_ENDPOINTS region = some eps) : eps ≠ [] := by
  have hmem := lookupRegion_mem REGION_ENDPOINTS region eps hreg
  obtain ⟨p, hp, hpe⟩ := List.mem_map.mp hmem
  exact hpe ▸ registry_values_nonempty p hp

/-- C6. For every region in the registry, the aggregated status counts
healthy verdicts, the healthy and unhealthy counts partition the
endpoint count, the average response time is the arithmetic mean of all
probe response times and is non-negative (given probes measured
non-negative elapsed times), and the region is healthy exactly when at
least one endpoint is. -/
theorem get_proxy_status_aggregate (region : String) (eps : List String)
    (env : NetEnv) (now : Int)
    (hreg : lookupRegion REGION_ENDPOINTS region = some eps)
    (helapsed : ∀ e ∈ eps, 0 ≤ (env e).elapsed) :
    ∃ st, get_proxy_status region env now
        = Except.ok { statuses := [st] } ∧
      st.healthy_endpoints = ((probeResults region eps env now).filter
        (fun r => r.is_healthy)).length ∧
      st.healthy_endpoints + ((probeResults region eps env now).filter
        (fun r => !r.is_healthy)).length = st.total_endpoints ∧
      st.total_endpoints = eps.length ∧
      st.avg_response_time = ((probeResults region eps env now).map
        (fun r => r.response_time)).sum / (eps.length : ℚ) ∧
      0 ≤ st.avg_response_time ∧
      (st.is_healthy = true ↔ 0 < st.healthy_endpoints) := by
  have hne : eps ≠ [] := lookup_registry_nonempty region eps hreg
  have hlen : 0 < eps.length := List.length_pos.mpr hne
  have havg : 0 ≤ ((probeResults region eps env now).map
      (fun r => r.response_time)).sum / (eps.length : ℚ) := by
    apply div_nonneg
    · apply List.sum_nonneg
      intro x hx
      obtain ⟨r, hr, hrx⟩ := List.mem_map.mp hx
      obtain ⟨e, he, her⟩ := List.mem_map.mp hr
      rw [← hrx, ← her, check_proxy_health_response_time]
      exact helapsed e he
    · exact_mod_cast Nat.zero_le _
  unfold get_proxy_status
  rw [hreg]
  refine ⟨_, rfl, rfl, ?_, ?_, ?_, ?_, ?_⟩
  · simpa [probeResults] using
      length_filter_add_length_filter_not
        (probeResults region eps env now) (fun r => r.is_healthy)
  · simp [probeResults]
  · simp only [if_pos hlen, probeResults]
  · simpa [probeResults, if_pos hlen] using havg
  · simp [decide_eq_true_iff]

/-- Witness for C6 at the registry region `asia`, with one endpoint
healthy in 1 time unit and one probe failing after 5 time units. -/
theorem get_proxy_status_aggregate_witness :
    ∃ st, get_proxy_status "asia"
        (fun e =>
          if e = "https://asia-east1-proxy6-455014.cloudfunctions.net/main"
          then ProbeOutcome.response 200 1 else ProbeOutcome.netError 5) 0
        = Except.ok { statuses := [st] } ∧
      st.healthy_endpoints = ((probeResults "asia" asiaEndpoints
        (fun e =>
          if e = "https://asia-east1-proxy6-455014.cloudfunctions.net/main"
          then ProbeOutcome.response 200 1 else ProbeOutcome.netError 5) 0).filter
        (fun r => r.is_healthy)).length ∧
      st.healthy_endpoints + ((probeResults "asia" asiaEndpoints
        (fun e =>
          if e = "https://asia-east1-proxy6-455014.cloudfunctions.net/main"
          then ProbeOutcome.response 200 1 else ProbeOutcome.netError 5) 0).filter
        (fun r => !r.is_healthy)).length = st.total_endpoints ∧
      st.total_endpoints = asiaEndpoints.length ∧
      st.avg_response_time = ((probeResults "asia" asiaEndpoints
        (fun e =>
          if e = "https://asia-east1-proxy6-455014.cloudfunctions.net/main"
          then ProbeOutcome.response 200 1 else ProbeOutcome.netError 5) 0).map
        (fun r => r.response_time)).sum / (asiaEndpoints.length : ℚ) ∧
      0 ≤ st.avg_response_time ∧
      (st.is_healthy = true ↔ 0 < st.healthy_endpoints) :=
  get_proxy_status_aggregate "asia" asiaEndpoints
    (fun e =>
      if e = "https://asia-east1-proxy6-455014.cloudfunctions.net/main"
      then ProbeOutcome.response 200 1 else ProbeOutcome.netError 5) 0
    (by rfl)
    (by
      intro e he
      by_cases h : e = "https://asia-east1-proxy6-455014.cloudfunctions.net/main" <;>
        simp [h, ProbeOutcome.elapsed])

/-- `List.getD` with a default already in the list always yields a
member of the list. -/
theorem getD_mem_of_mem {α : Type} (l : List α) (i : Nat) (d : α)
    (hd : d ∈ l) : l.getD i d ∈ l := by
  rw [List.getD_eq_getElem?_getD]
  cases h : l[i]? with
  | none => simpa using hd
  | some x => simpa using List.getElem?_mem h

/-! ## Claims about the Endpoint Selector and Proxy Executor -/

/-- C4. Whenever `POST /fetch` issues a forward call, the endpoint it
selected belongs to the healthy subset of the requested region's
endpoints, as determined by the probes run for this request; when the
healthy subset is empty, the request fails with 503 and no forward call
is issued. -/
theorem proxy_fetch_selects_healthy (region : String) (eps : List String)
    (env : NetEnv) (now : Int) (pick : Nat)
    (forward : String → ForwardOutcome)
    (hreg : lookupRegion REGION_ENDPOINTS region = some eps) :
    (∀ e, (proxy_fetch region env now pick forward).forwarded = some e →
      e ∈ healthySubset region eps env now) ∧
    (healthySubset region eps env now = [] →
      (proxy_fetch region env now pick forward).response
        = Except.error
            (PyExc.httpException 503 "No healthy proxy endpoints available") ∧
      (proxy_fetch region env now pick forward).forwarded = none) := by
  cases hH : healthySubset region eps env now with
  | nil =>
    refine ⟨?_, fun _ => ?_⟩
    · intro e he
      simp only [proxy_fetch, hreg, hH] at he
      exact absurd he (by simp)
    · constructor <;> simp only [proxy_fetch, hreg, hH]
  | cons h t =>
    constructor
    · intro e he
      have hsel : (h :: t).getD (pick % (h :: t).length) h ∈ h :: t :=
        getD_mem_of_mem (h :: t) (pick % (h :: t).length) h
          (List.mem_cons_self h t)
      simp only [proxy_fetch, hreg, hH] at he
      cases hf : forward ((h :: t).getD (pick % (h :: t).length) h) <;>
        simp only [hf, Option.some.injEq] at he <;>
        exact he ▸ hsel
    · intro hcontra
      exact absurd hcontra (by simp)

/-- Witness for C4 at the registry region `asia` with every probe
failing: the healthy subset is empty, the request fails 503, and no
forward call is made. -/
theorem proxy_fetch_selects_healthy_witness :
    (∀ e, (proxy_fetch "asia" (fun _ => ProbeOutcome.netError 5) 0 0
        (fun _ => ForwardOutcome.fail)).forwarded = some e →
      e ∈ healthySubset "asia" asiaEndpoints
            (fun _ => ProbeOutcome.netError 5) 0) ∧
    (healthySubset "asia" asiaEndpoints (fun _ => ProbeOutcome.netError 5) 0
        = [] →
      (proxy_fetch "asia" (fun _ => ProbeOutcome.netError 5) 0 0
          (fun _ => ForwardOutcome.fail)).response
        = Except.error
            (PyExc.httpException 503 "No healthy proxy endpoints available") ∧
      (proxy_fetch "asia" (fun _ => ProbeOutcome.netError 5) 0 0
          (fun _ => ForwardOutcome.fail)).forwarded = none) :=
  proxy_fetch_selects_healthy "asia" asiaEndpoints
    (fun _ => ProbeOutcome.netError 5) 0 0 (fun _ => ForwardOutcome.fail)
    (by rfl)

/-- C10. Every successful `POST /fetch` response reports the requested
region as `region_used`, and the whole response is built from the
upstream body fields and that region alone (`mkProxyResponse` takes no
endpoint), so it does not reveal which endpoint served the request. -/
theorem proxy_fetch_region_used (region : String) (env : NetEnv) (now : Int)
    (pick : Nat) (forward : String → ForwardOutcome) (r : ProxyResponse)
    (hok : (proxy_fetch region env now pick forward).response
        = Except.ok r) :
    r.region_used = region ∧ ∃ d, r = mkProxyResponse d region := by
  cases hreg : lookupRegion REGION_ENDPOINTS region with
  | none =>
    simp only [proxy_fetch, hreg] at hok
    exact absurd hok (by simp)
  | some eps =>
    cases hH : healthySubset region eps env now with
    | nil =>
      simp only [proxy_fetch, hreg, hH] at hok
      exact absurd hok (by simp)
    | cons h t =>
      cases hf : forward ((h :: t).getD (pick % (h :: t).length) h) with
      | ok d =>
        simp only [proxy_fetch, hreg, hH, hf, Except.ok.injEq] at hok
        exact ⟨by rw [← hok]; rfl, d, hok.symm⟩
      | fail =>
        simp only [proxy_fetch, hreg, hH, hf] at hok
        exact absurd hok (by simp)

/-- Witness for C10: a successful fetch through the single
`middle-east` endpoint. -/
theorem proxy_fetch_region_used_witness :
    (mkProxyResponse
        { result := "res", public_ip := "1.2.3.4", device_id := "dev1" }
        "middle-east").region_used = "middle-east" ∧
    ∃ d, mkProxyResponse
        { result := "res", public_ip := "1.2.3.4", device_id := "dev1" }
        "middle-east" = mkProxyResponse d "middle-east" :=
  proxy_fetch_region_used "middle-east"
    (fun _ => ProbeOutcome.response 200 1) 0 0
    (fun _ => ForwardOutcome.ok
      { result := "res", public_ip := "1.2.3.4", device_id := "dev1" })
    (mkProxyResponse
      { result := "res", public_ip := "1.2.3.4", device_id := "dev1" }
      "middle-east")
    (by rfl)

/-! ## Claims about token previews and the api-key listing -/

/-- C7 counterexample. The claim says preview fails on a token string
shorter than 16 characters; Python's clamping slices make the code
total instead: on the 4-character token `abcd` the code yields the
string `abcd...abcd` (no failure), while the spec-side preview, which
fails below 16 characters as the claim demands, yields no value. -/
theorem key_preview_short_no_failure :
    key_preview "abcd" = "abcd...abcd" ∧
    spec_preview "abcd" = none ∧
    ("abcd" : String).length < 16 := by
  refine ⟨rfl, rfl, by decide⟩

/-- C7 (amended). For every token string of at least 16 characters, the
preview is exactly the first 8 characters, the three-dot ellipsis, and
the last 8 characters; it has length 19; it depends only on those 16
characters (any token agreeing on them previews identically, so no
other character is exposed); and it agrees with the spec's preview. -/
theorem key_preview_masks (t : String) (h16 : 16 ≤ t.length) :
    (key_preview t).data = t.data.take 8 ++
      (String.mk [Char.ofNat 46, Char.ofNat 46, Char.ofNat 46]).data ++
      t.data.drop (t.data.length - 8) ∧
    (key_preview t).length = 19 ∧
    (∀ u : String, u.data.take 8 = t.data.take 8 →
      u.data.drop (u.data.length - 8) = t.data.drop (t.data.length - 8) →
      key_preview u = key_preview t) ∧
    spec_preview t = some (key_preview t) := by
  have hdl : t.data.length = t.length := rfl
  refine ⟨rfl, ?_, ?_, ?_⟩
  · simp only [key_preview, pySliceFront, pySliceBack, FRONT_PREVIEW_LENGTH,
      END_PREVIEW_LENGTH]
    show (t.data.take 8 ++ _ ++ t.data.drop (t.data.length - 8)).length = 19
    simp only [List.length_append, List.length_take, List.length_drop,
      List.length_cons, List.length_nil]
    omega
  · intro u hu1 hu2
    simp only [key_preview, pySliceFront, pySliceBack, FRONT_PREVIEW_LENGTH,
      END_PREVIEW_LENGTH, hu1, hu2]
  · simp only [spec_preview, key_preview, pySliceFront, pySliceBack,
      FRONT_PREVIEW_LENGTH, END_PREVIEW_LENGTH]
    rw [if_neg (by omega)]

/-- Witness for C7 (amended) at the 16-character token
`0123456789abcdef`. -/
theorem key_preview_masks_witness :
    (key_preview "0123456789abcdef").data =
      ("0123456789abcdef" : String).data.take 8 ++
      (String.mk [Char.ofNat 46, Char.ofNat 46, Char.ofNat 46]).data ++
      ("0123456789abcdef" : String).data.drop
        (("0123456789abcdef" : String).data.length - 8) ∧
    (key_preview "0123456789abcdef").length = 19 ∧
    (∀ u : String,
      u.data.take 8 = ("0123456789abcdef" : String).data.take 8 →
      u.data.drop (u.data.length - 8) =
        ("0123456789abcdef" : String).data.drop
          (("0123456789abcdef" : String).data.length - 8) →
      key_preview u = key_preview "0123456789abcdef") ∧
    spec_preview "0123456789abcdef" = some (key_preview "0123456789abcdef") :=
  key_preview_masks "0123456789abcdef" (by decide)

/-- C8 counterexample. A persisted token of the subscribed user whose
`is_active` flag is false is omitted from `GET /api-keys` (the session
query filters on `is_active == True`), so the listing does not contain
one entry for each persisted token of the user, contrary to the
claim. -/
theorem list_user_api_keys_omits_inactive :
    sampleUser.has_subscription = true ∧
    sampleInactiveToken.user_id = sampleUser.id ∧
    list_user_api_keys [sampleInactiveToken] sampleUser = Except.ok [] :=
  ⟨rfl, rfl, rfl⟩

/-- C8 (amended). For every subscribed user, `GET /api-keys` returns
one entry per persisted token of that user whose `is_active` flag is
set: the listing has exactly that many entries, every such token
appears as `{key_preview, created_at, expires_at, is_active}` with the
ISO-8601 rendering of its timestamps, and nothing else appears. -/
theorem list_user_api_keys_entries (tokens : List APIToken) (u : User)
    (hsub : u.has_subscription = true) :
    ∃ l, list_user_api_keys tokens u = Except.ok l ∧
      l.length = (tokens.filter (fun t =>
        t.user_id == u.id && t.is_active)).length ∧
      (∀ t ∈ tokens, t.user_id = u.id → t.is_active = true →
        ({ key_preview := key_preview t.token,
           created_at := isoformat t.created_at,
           expires_at := isoformat t.expires_at,
           is_active := t.is_active } : APIKeyResponse) ∈ l) ∧
      (∀ entry ∈ l, ∃ t, t ∈ tokens ∧ t.user_id = u.id ∧
        t.is_active = true ∧
        entry = { key_preview := key_preview t.token,
                  created_at := isoformat t.created_at,
                  expires_at := isoformat t.expires_at,
                  is_active := t.is_active }) := by
  refine ⟨(tokens.filter (fun t =>
    t.user_id == u.id && t.is_active)).map apiKeyEntry, ?_, ?_, ?_, ?_⟩
  · simp [list_user_api_keys, hsub]
  · simp
  · intro t ht h1 h2
    exact List.mem_map.mpr
      ⟨t, List.mem_filter.mpr ⟨ht, by simp [h1, h2]⟩, rfl⟩
  · intro entry hentry
    obtain ⟨t, htf, hte⟩ := List.mem_map.mp hentry
    obtain ⟨ht, hcond⟩ := List.mem_filter.mp htf
    simp only [Bool.and_eq_true, beq_iff_eq] at hcond
    exact ⟨t, ht, hcond.1, hcond.2, hte.symm⟩

/-- Witness for C8 (amended): the subscribed `sampleUser` with one
active persisted token. -/
theorem list_user_api_keys_entries_witness :
    ∃ l, list_user_api_keys [sampleActiveToken] sampleUser = Except.ok l ∧
      l.length = ([sampleActiveToken].filter (fun t =>
        t.user_id == sampleUser.id && t.is_active)).length ∧
      (∀ t ∈ [sampleActiveToken],
        t.user_id = sampleUser.id → t.is_active = true →
        ({ key_preview := key_preview t.token,
           created_at := isoformat t.created_at,
           expires_at := isoformat t.expires_at,
           is_active := t.is_active } : APIKeyResponse) ∈ l) ∧
      (∀ entry ∈ l, ∃ t, t ∈ [sampleActiveToken] ∧
        t.user_id = sampleUser.id ∧ t.is_active = true ∧
        entry = { key_preview := key_preview t.token,
                  created_at := isoformat t.created_at,
                  expires_at := isoformat t.expires_at,
                  is_active := t.is_active }) :=
  list_user_api_keys_entries [sampleActiveToken] sampleUser rfl

end DataProxy
